import Mathlib

/-!
Verification development for the stock-evaluator scoring and backtesting core.

The Python source (src/core/technicals.py, scoring.py, recommendations.py,
fundamentals.py, backtesting.py and src/config/signals.py, settings.py) is
shallowly embedded below.  Conventions of the embedding:

* Python floats are modelled as exact rationals (`ℚ`); integer scores as `ℤ`.
* Python `round` (banker's rounding, half-to-even) is `pyRound`;
  `round(x, 2)` is `round2`.
* pandas `Series` / DataFrames become `List ℚ` / `List Bar` in chronological
  order; `iloc[-k]` becomes indexing from the end.
* `dict.get(key, default)` over the loosely-typed stock-data dictionaries is
  modelled with `Option` fields; the Python idiom `d.get(k, default) or default`
  (which also maps `None` and `0`/`0.0` to the default) is `pyOrDefault`.
* Functions that can return `None` / `{}` in Python return `Option _`.
* The Bollinger-squeeze branch for series of 120 bars or more compares
  float square-root based bandwidth quantiles, which have no exact rational
  value; that branch is kept as an explicit boolean parameter (`sqOracle`)
  of the technicals computation.  No claim below depends on its value: for
  shorter series the source short-circuits the flag to `False`, which is
  embedded exactly.
-/

namespace StockEval

/-- Python `round` on an exact value: round half to even (banker's rounding). -/
def pyRound (q : ℚ) : ℤ :=
  let f : ℤ := ⌊q⌋
  let r : ℚ := q - (f : ℚ)
  if r < 1/2 then f
  else if 1/2 < r then f + 1
  else if f % 2 = 0 then f else f + 1

/-- Python `round(x, 2)`. -/
def round2 (q : ℚ) : ℚ := (pyRound (q * 100) : ℚ) / 100

/-- `np.mean` / `Series.mean` of a list (the sources only take means of
nonempty windows; an empty list yields 0 here). -/
def listMean (xs : List ℚ) : ℚ := xs.sum / (xs.length : ℚ)

/-- `d.get(key, default) or default`: a missing key, a `None` value and a
falsy (zero) value all collapse to the default. -/
def pyOrDefault (x : Option ℚ) (d : ℚ) : ℚ :=
  match x with
  | none => d
  | some v => if v = 0 then d else v

/-- Last element of a series (`iloc[-1]`). -/
def lastQ (xs : List ℚ) : Option ℚ := xs.getLast?

/-- `iloc[-k]` (k-th element from the end, 1-based). -/
def ilocNeg (xs : List ℚ) (k : ℕ) : Option ℚ := xs.get? (xs.length - k)

/-- Trailing window `iloc[-k:]` (the whole list when it is shorter). -/
def lastN (xs : List ℚ) (k : ℕ) : List ℚ := xs.drop (xs.length - k)

/-- Window `iloc[-a:-b]` for `a > b > 0`. -/
def sliceNeg (xs : List ℚ) (a b : ℕ) : List ℚ :=
  (xs.drop (xs.length - a)).take (a - b)

-- ──────────────────────────────────────────────────────────────────────────
-- Data model: one OHLCV bar (src uses date/open/high/low/close/volume; the
-- date and open fields are never read by the embedded computations).
-- ──────────────────────────────────────────────────────────────────────────

structure Bar where
  high : ℚ
  low : ℚ
  close : ℚ
  volume : ℚ
  deriving Repr, DecidableEq

def closes (df : List Bar) : List ℚ := df.map Bar.close
def highsOf (df : List Bar) : List ℚ := df.map Bar.high
def lowsOf (df : List Bar) : List ℚ := df.map Bar.low
def volumes (df : List Bar) : List ℚ := df.map Bar.volume

-- ──────────────────────────────────────────────────────────────────────────
-- config/signals.py — SIGNAL_WIN_RATES and TECHNICAL_ADJUSTMENTS
-- ──────────────────────────────────────────────────────────────────────────

structure WinRateEntry where
  win_rate : ℚ
  avg_return : ℚ
  hold_period : ℕ
  confidence : ℚ
  deriving Repr, DecidableEq

/-- `SIGNAL_WIN_RATES` from config/signals.py, with the
`SIGNAL_WIN_RATES.get(action, SIGNAL_WIN_RATES["HOLD"])` lookup folded in. -/
def SIGNAL_WIN_RATES (action : String) : WinRateEntry :=
  if action = "STRONG BUY" then ⟨0.40, 0.20, 45, 0.80⟩
  else if action = "ACCUMULATE" then ⟨0.33, 0.15, 45, 0.65⟩
  else if action = "BUY DIP" then ⟨0.19, 0.12, 45, 0.55⟩
  else if action = "SPECULATIVE BUY" then ⟨0.12, 0.25, 60, 0.35⟩
  else if action = "WATCH" then ⟨0.10, 0.08, 30, 0.30⟩
  else if action = "HOLD" then ⟨0.08, 0.05, 30, 0.25⟩
  else if action = "REDUCE" then ⟨0.05, -0.05, 14, 0.60⟩
  else if action = "TAKE PROFITS" then ⟨0.03, -0.10, 14, 0.70⟩
  else if action = "SELL" then ⟨0.02, -0.15, 7, 0.75⟩
  else ⟨0.08, 0.05, 30, 0.25⟩

-- TECHNICAL_ADJUSTMENTS adjustment values from config/signals.py.
def ADJ_ema_high : ℚ := 0.085
def ADJ_rsi_overbought : ℚ := -0.15
def ADJ_rsi_optimal : ℚ := 0.05
def ADJ_inst_strong : ℚ := 0.04
def ADJ_score_high : ℚ := 0.04
def ADJ_trend_bullish : ℚ := 0.03
def ADJ_trend_bearish : ℚ := -0.08
def ADJ_squeeze_potential : ℚ := 0.03

-- ──────────────────────────────────────────────────────────────────────────
-- core/recommendations.py
-- ──────────────────────────────────────────────────────────────────────────

/-- The loosely-typed `stock_data` dictionary consumed by
`generate_recommendation` and `calculate_win_probability`.  `none` stands
for a key that is missing or bound to `None`.  The nested
`institutional_flow["score"]` fallback shape is pre-resolved into
`institutional_score` (every caller in the repository passes the flat key). -/
structure StockData where
  score : Option ℚ
  rsi : Option ℚ
  ema_score : Option ℚ
  institutional_score : Option ℚ
  breakout_score : Option ℚ
  momentum_5d : Option ℚ
  momentum_20d : Option ℚ
  bollinger_squeeze : Bool
  deriving Repr, DecidableEq

structure Recommendation where
  action : String
  confidence : String
  reasoning : List String
  deriving Repr, DecidableEq

/-- `generate_recommendation` (core/recommendations.py lines 45-154): the
priority-ordered 9-level rule cascade.  Reasoning strings keep only their
static prefix (the source interpolates numbers into some of them); the
option-strategy dictionary is not modelled (no claim reads it). -/
def generate_recommendation (sd : StockData) : Recommendation :=
  let score := pyOrDefault sd.score 0
  let rsi := pyOrDefault sd.rsi 50
  let ema_score := pyOrDefault sd.ema_score 0
  let inst_score := match sd.institutional_score with
    | none => (50 : ℚ)
    | some v => v
  let month_change := pyOrDefault sd.momentum_20d 0
  if rsi > 70 then
    ⟨"TAKE PROFITS", "HIGH", ["RSI overbought"]⟩
  else if score ≥ 75 ∧ ema_score ≥ 70 ∧ inst_score ≥ 65 ∧ 40 ≤ rsi ∧ rsi ≤ 70 then
    ⟨"STRONG BUY", "HIGH", ["Score 75+ with strong institutional flow", "RSI in optimal 40-70 range"]⟩
  else if rsi < 30 ∧ inst_score ≥ 60 ∧ ema_score ≥ 40 then
    ⟨"BUY DIP", "MEDIUM", ["Oversold RSI <30 with institutional support", "Best as 45-day hold for mean reversion"]⟩
  else if score ≥ 70 ∧ ema_score ≥ 60 ∧ 35 ≤ rsi ∧ rsi ≤ 65 then
    ⟨"ACCUMULATE", "MEDIUM",
      if sd.bollinger_squeeze then
        ["Score 70+ in RSI sweet spot", "Bollinger squeeze adds breakout potential"]
      else ["Score 70+ in RSI sweet spot"]⟩
  else if rsi < 25 ∧ month_change < -30 then
    ⟨"SPECULATIVE BUY", "LOW", ["Capitulation level", "High risk-reward mean reversion play"]⟩
  else if score < 25 ∧ ema_score < 30 ∧ inst_score < 40 then
    ⟨"SELL", "HIGH",
      if month_change < -20 then
        ["Weak technicals with distribution", "Significant downtrend accelerating"]
      else ["Weak technicals with distribution"]⟩
  else if score < 40 ∧ month_change < -15 ∧ inst_score < 45 then
    ⟨"REDUCE", "MEDIUM", ["Deteriorating momentum with weak institutional flow"]⟩
  else if 55 ≤ score ∧ score < 70 ∧ 35 ≤ rsi ∧ rsi ≤ 55 then
    ⟨"WATCH", "LOW",
      if sd.bollinger_squeeze then
        ["Neutral setup", "Squeeze forming"]
      else ["Neutral setup"]⟩
  else
    ⟨"HOLD", "MEDIUM",
      if score ≥ 50 then ["Decent score but missing confirmation signals"]
      else ["Insufficient momentum for new positions"]⟩

structure WinProbability where
  win_probability : ℚ
  expected_return : ℚ
  confidence : ℚ
  hold_period : ℕ
  adjustments : List (String × ℚ)
  total_adjustment : ℚ
  deriving Repr, DecidableEq

/-- `calculate_win_probability` (core/recommendations.py lines 179-268):
base rates per action plus up to 8 independent additive adjustments;
the probability is clamped to [0,1], the expected return is not. -/
def calculate_win_probability (action : String) (sd : StockData) : WinProbability :=
  let base := SIGNAL_WIN_RATES action
  let ema_score := pyOrDefault sd.ema_score 0
  let rsi := pyOrDefault sd.rsi 50
  let score := pyOrDefault sd.score 0
  let squeeze := sd.bollinger_squeeze
  let inst_score := match sd.institutional_score with
    | none => (50 : ℚ)
    | some v => v
  let adjustments : List (String × ℚ) :=
    (if ema_score ≥ 70 then [("EMA Score 70+", ADJ_ema_high)] else []) ++
    (if rsi > 70 then [("RSI Overbought", ADJ_rsi_overbought)] else []) ++
    (if 40 ≤ rsi ∧ rsi ≤ 65 then [("RSI Optimal Zone", ADJ_rsi_optimal)] else []) ++
    (if inst_score ≥ 65 then [("Strong Inst. Flow", ADJ_inst_strong)] else []) ++
    (if score ≥ 55 then [("Overall Score 55+", ADJ_score_high)] else []) ++
    (if ema_score ≥ 60 then [("Bullish Trend", ADJ_trend_bullish)] else []) ++
    (if ema_score < 30 then [("Bearish Trend", ADJ_trend_bearish)] else []) ++
    (if squeeze then [("Squeeze Setup", ADJ_squeeze_potential)] else [])
  let total_adjustment := (adjustments.map Prod.snd).sum
  { win_probability := max 0 (min 1 (base.win_rate + total_adjustment))
    expected_return := base.avg_return * (1 + total_adjustment)
    confidence := base.confidence
    hold_period := base.hold_period
    adjustments := adjustments
    total_adjustment := total_adjustment }

-- ──────────────────────────────────────────────────────────────────────────
-- core/technicals.py
-- ──────────────────────────────────────────────────────────────────────────

/-- Tail of `ewm(span, adjust=False).mean()`: `e_t = α·x_t + (1-α)·e_(t-1)`. -/
def emaFrom (a prev : ℚ) : List ℚ → List ℚ
  | [] => []
  | x :: rest =>
    let e := a * x + (1 - a) * prev
    e :: emaFrom a e rest

/-- `Series.ewm(span=p, adjust=False).mean()`: seeded from the first value. -/
def emaSeries (span : ℕ) (xs : List ℚ) : List ℚ :=
  match xs with
  | [] => []
  | x :: rest => x :: emaFrom (2 / ((span : ℚ) + 1)) x rest

/-- The `emas` dictionary for the default periods [8, 21, 50, 200]
(`calculate_emas`).  Every caller in the repository uses these defaults. -/
structure EmaDict where
  e8 : List ℚ
  e21 : List ℚ
  e50 : List ℚ
  e200 : List ℚ
  deriving Repr, DecidableEq

def calculate_emas (df : List Bar) : EmaDict :=
  let cs := closes df
  ⟨emaSeries 8 cs, emaSeries 21 cs, emaSeries 50 cs, emaSeries 200 cs⟩

/-- 10 points per adjacent pair of available EMAs where the shorter-period
EMA exceeds the next-longer one (the stacking-order loop). -/
def stackPoints : List ℚ → ℤ
  | a :: b :: rest => (if a > b then 10 else 0) + stackPoints (b :: rest)
  | _ => 0

/-- The `latest` dictionary of `calculate_ema_score` as a list in ascending
period order (a period is present exactly when its series is nonempty;
`pd.notna` is always true in the exact-rational model). -/
def emaLatestList (emas : EmaDict) : List ℚ :=
  [lastQ emas.e8, lastQ emas.e21, lastQ emas.e50, lastQ emas.e200].filterMap id

/-- "Price above EMAs" component (technicals.py lines 44-48): 10 points per
available period whose latest EMA is below the current price. -/
def ema_above (emas : EmaDict) (current_price : ℚ) : ℤ :=
  10 * (((emaLatestList emas).filter (fun v => current_price > v)).length : ℤ)

/-- Price-proximity component (lines 58-66). -/
def ema_prox (emas : EmaDict) (current_price : ℚ) : ℤ :=
  match lastQ emas.e8 with
  | none => 0
  | some v8 =>
    let dist_pct := |current_price - v8| / v8 * 100
    if dist_pct < 1 then 15 else if dist_pct < 2 then 10
    else if dist_pct < 3 then 5 else 0

/-- EMA8-rising trend component (lines 68-74, +7 points). -/
def ema_trend8 (emas : EmaDict) : ℤ :=
  if emas.e8.length ≥ 5 ∧
     (lastQ emas.e8).getD 0 > (ilocNeg emas.e8 5).getD 0 then 7 else 0

/-- EMA21-rising trend component (lines 68-74, +8 points). -/
def ema_trend21 (emas : EmaDict) : ℤ :=
  if emas.e21.length ≥ 5 ∧
     (lastQ emas.e21).getD 0 > (ilocNeg emas.e21 5).getD 0 then 8 else 0

/-- `calculate_ema_score` (core/technicals.py lines 26-76) for the default
four periods: price-above points, stacking-order points over the available
latest values in period order, proximity bonus, and trend bonuses, capped
at 100; 0 when no period has data. -/
def calculate_ema_score (emas : EmaDict) (current_price : ℚ) : ℤ :=
  if emaLatestList emas = [] then 0
  else
    min (ema_above emas current_price + stackPoints (emaLatestList emas) +
      ema_prox emas current_price + ema_trend8 emas + ema_trend21 emas) 100

/-- Final value of `ewm(alpha, adjust=True, ignore_na=False).mean()` over a
fully observed list: `Σ x_j·β^(n-1-j) / Σ β^(n-1-j)` with `β = 1-α`. -/
def wmeanAdjusted (b : ℚ) (xs : List ℚ) : ℚ :=
  let p := xs.foldl (fun (p : ℚ × ℚ) x => (p.1 * b + x, p.2 * b + 1)) (0, 0)
  p.1 / p.2

/-- Final RSI(14) value (`calculate_rsi`): the first diff is `NaN`, so the
ewm means range over the `n-1` observed gains/losses and the last RSI value
is non-NaN exactly when `n-1 ≥ min_periods = 14`. -/
def rsiLast (cs : List ℚ) : Option ℚ :=
  if cs.length < 15 then none
  else
    let deltas := List.zipWith (fun b a => b - a) cs.tail cs
    let gains := deltas.map (fun d => max d 0)
    let losses := deltas.map (fun d => max (-d) 0)
    let b : ℚ := 1 - 1/14
    let avg_gain := wmeanAdjusted b gains
    let avg_loss := wmeanAdjusted b losses
    let al := if avg_loss = 0 then 1/10^10 else avg_loss
    some (100 - 100 / (1 + avg_gain / al))

/-- True-range series: `max(high-low, |high-prevClose|, |low-prevClose|)`;
for the first bar the shifted terms are `NaN` and pandas' row-max keeps
`high-low`. -/
def trueRanges : List Bar → List ℚ
  | [] => []
  | b :: rest =>
    (b.high - b.low) :: go b rest
where
  go (prev : Bar) : List Bar → List ℚ
    | [] => []
    | c :: rest =>
      max (c.high - c.low) (max |c.high - prev.close| |c.low - prev.close|) ::
        go c rest

/-- Final ATR(14) value: `rolling(14).mean()` is `NaN` until 14 bars exist. -/
def atrLast (df : List Bar) : Option ℚ :=
  if df.length < 14 then none
  else some (listMean (lastN (trueRanges df) 14))

/-- `calculate_volume_ratio` (period 20). -/
def calculate_volume_ratio (df : List Bar) : ℚ :=
  if df.length < 21 then 1
  else
    let vs := volumes df
    let avg_vol := listMean (sliceNeg vs 21 1)
    if avg_vol = 0 then 1 else (lastQ vs).getD 0 / avg_vol

/-- Momentum vs the close `k` bars back (`iloc[-k]`, needing `n ≥ k`). -/
def momentumN (cs : List ℚ) (k : ℕ) : ℚ :=
  if cs.length ≥ k then
    let c0 := (ilocNeg cs k).getD 0
    ((lastQ cs).getD 0 - c0) / c0 * 100
  else 0

/-- The analytically relevant fields of the dictionary returned by
`calculate_all_technicals`.  The charting-series fields and the
MACD/ADX/support-resistance scalars are omitted: nothing in the claims or
in the downstream scoring/backtesting code reads them.  `emas_latest` is
the `emas` dict of latest per-period values (period order 8, 21, 50, 200). -/
structure Technicals where
  price : ℚ
  emas_latest : List ℚ
  ema_score : ℤ
  rsi : Option ℚ
  bollinger_squeeze : Bool
  atr : Option ℚ
  atr_pct : Option ℚ
  volume_ratio : ℚ
  momentum_5d : ℚ
  momentum_20d : ℚ
  deriving Repr, DecidableEq

/-- `calculate_all_technicals` (core/technicals.py lines 307-378): `{}` (here
`none`) for fewer than 30 bars, otherwise the assembled indicator values.
`sqOracle` stands for the irrational 120-bar Bollinger-squeeze comparison;
for shorter series the source leaves the flag `False`, embedded exactly. -/
def calculate_all_technicals (sqOracle : List Bar → Bool) (df : List Bar) :
    Option Technicals :=
  if df.length < 30 then none
  else
    let cs := closes df
    let current_price := (lastQ cs).getD 0
    let emas := calculate_emas df
    let atr_value := atrLast df
    some
      { price := current_price
        emas_latest := [lastQ emas.e8, lastQ emas.e21, lastQ emas.e50,
                        lastQ emas.e200].filterMap id
        ema_score := calculate_ema_score emas current_price
        rsi := rsiLast cs
        bollinger_squeeze := if df.length ≥ 120 then sqOracle df else false
        atr := atr_value
        -- `atr_pct` is `None` when `atr_value` is falsy (missing or 0.0)
        atr_pct := match atr_value with
          | none => none
          | some a => if a = 0 then none else some (a / current_price * 100)
        volume_ratio := calculate_volume_ratio df
        momentum_5d := momentumN cs 6
        momentum_20d := momentumN cs 21 }

-- ──────────────────────────────────────────────────────────────────────────
-- core/scoring.py — institutional flow, pre-breakout, overall score
-- ──────────────────────────────────────────────────────────────────────────

def listMax : List ℚ → ℚ
  | [] => 0
  | h :: t => t.foldl max h

def listMin : List ℚ → ℚ
  | [] => 0
  | h :: t => t.foldl min h

/-- Result dictionary of `calculate_institutional_flow`.  Interpolated
numbers are dropped from the signal strings (static prefixes kept).  The
short-input default dictionary has no `volume_ratio` key, hence `Option`. -/
structure InstFlow where
  score : ℤ
  signal : String
  signals : List String
  confidence : String
  volume_ratio : Option ℚ
  deriving Repr, DecidableEq

/-- The OBV walk of `calculate_institutional_flow` (scoring.py lines 54-63):
starts at `[0.0]` and appends one value per index `i ∈ [1, min(30, n))`,
reading position `n-30+i` when `n ≥ 30`, else `i`. -/
def instObv (cs vs : List ℚ) (n : ℕ) : List ℚ :=
  ((List.range (min 30 n)).drop 1).foldl
    (fun acc i =>
      let idx := if n ≥ 30 then n - 30 + i else i
      if idx < n ∧ 0 < idx then
        let prev := (lastQ acc).getD 0
        let ci := (cs.get? idx).getD 0
        let cp := (cs.get? (idx - 1)).getD 0
        let v := (vs.get? idx).getD 0
        acc ++ [if ci > cp then prev + v else if ci < cp then prev - v else prev]
      else acc)
    [0]

/-- The backward walk counting consecutive up-days on above-average volume
(scoring.py lines 112-118): up to `steps` bars ending at index `i`. -/
def consecUp (cs vs : List ℚ) (avg : ℚ) : ℕ → ℕ → ℕ
  | 0, _ => 0
  | steps + 1, i =>
    if 0 < i ∧ (cs.get? i).getD 0 > (cs.get? (i - 1)).getD 0 ∧
       (vs.get? i).getD 0 > avg
    then 1 + consecUp cs vs avg steps (i - 1)
    else 0

/-- The up-volume / down-volume ratio over the trailing 20 bars (scoring.py
lines 36-45): each bar of the window is classified by its close against the
prior close, ties counting as down. -/
def inst_vol_ratio (df : List Bar) : ℚ :=
  let recent := df.drop (df.length - 20)
  let pairs := recent.zip recent.tail
  let up_vol := ((pairs.filter (fun p => p.2.close > p.1.close)).map
    (fun p => p.2.volume)).sum
  let down_vol := ((pairs.filter (fun p => ¬ p.2.close > p.1.close)).map
    (fun p => p.2.volume)).sum
  up_vol / max down_vol 1

/-- Institutional-flow signal 1 (lines 45-51): volume-price trend. -/
def inst_s1 (df : List Bar) : ℤ × List String :=
  if inst_vol_ratio df > 1.5 then (15, ["Heavy buying pressure"])
  else if inst_vol_ratio df < 0.7 then (-15, ["Distribution detected"])
  else (0, [])

/-- Institutional-flow signal 2 (lines 53-73): OBV trend. -/
def inst_s2 (df : List Bar) : ℤ × List String :=
  let obv := instObv (closes df) (volumes df) df.length
  if obv.length ≥ 15 then
    let obv_recent := listMean (lastN obv 5)
    let obv_prior := if obv.length ≥ 15 then listMean ((obv.drop 10).take 5)
                     else listMean (obv.take 5)
    if obv_recent > obv_prior * 1.1 then (10, ["OBV trending up"])
    else if obv_recent < obv_prior * 0.9 then (-10, ["OBV trending down"])
    else (0, [])
  else (0, [])

/-- The cumulative A/D line over the trailing 30 bars (lines 76-86). -/
def inst_ad_values (df : List Bar) : List ℚ :=
  ((df.drop (df.length - 30)).foldl
    (fun (acc : List ℚ × ℚ) b =>
      let mfm := ((b.close - b.low) - (b.high - b.close)) /
        max (b.high - b.low) (1/10^10)
      let ad := acc.2 + mfm * b.volume
      (acc.1 ++ [ad], ad)) ([], 0)).1

/-- Institutional-flow signal 3 (lines 88-94): A/D line direction. -/
def inst_s3 (df : List Bar) : ℤ × List String :=
  let ad_values := inst_ad_values df
  if ad_values.length ≥ 15 then
    if (lastQ ad_values).getD 0 > (ilocNeg ad_values 11).getD 0 then
      (10, ["AD Line rising"])
    else if (lastQ ad_values).getD 0 < (ilocNeg ad_values 11).getD 0 then
      (-10, ["AD Line falling"])
    else (0, [])
  else (0, [])

/-- Institutional-flow signal 4 (lines 96-109): unusual volume. -/
def inst_s4 (df : List Bar) : ℤ × List String :=
  let cs := closes df
  let vs := volumes df
  if df.length ≥ 25 then
    let avg_vol := listMean (sliceNeg vs 21 1)
    let recent_avg := listMean (lastN vs 5)
    if avg_vol > 0 then
      if recent_avg / avg_vol > 2 then
        let c1 := (lastQ cs).getD 0
        let c5 := (ilocNeg cs 5).getD 0
        if (c1 - c5) / c5 > 0 then (15, ["Institutional accumulation"])
        else (-10, ["High volume selling"])
      else (0, [])
    else (0, [])
  else (0, [])

/-- Institutional-flow signal 5 (lines 111-122): consecutive up-days on
above-average volume. -/
def inst_s5 (df : List Bar) : ℤ × List String :=
  let n := df.length
  let vs := volumes df
  let avg_vol_20 := if n ≥ 20 then listMean (lastN vs 20) else listMean vs
  let consecutive_up := consecUp (closes df) vs avg_vol_20 (min 10 (n - 1)) (n - 1)
  if consecutive_up ≥ 4 then (10, ["consecutive up days on volume"])
  else (0, [])

/-- `calculate_institutional_flow` (core/scoring.py lines 20-147): baseline
50 plus the five additive signals, clamped to [0,100] (`round` of a Python
int is itself), with the signal/confidence labels from the score bands. -/
def calculate_institutional_flow (df : List Bar) : InstFlow :=
  if df.length < 20 then ⟨50, "Neutral", [], "Low", none⟩
  else
    let score : ℤ := max 0 (min 100 (50 + (inst_s1 df).1 + (inst_s2 df).1 +
      (inst_s3 df).1 + (inst_s4 df).1 + (inst_s5 df).1))
    let sigconf : String × String :=
      if score ≥ 75 then ("Strong Accumulation", "High")
      else if score ≥ 60 then ("Accumulating", "Medium")
      else if score ≤ 25 then ("Strong Distribution", "High")
      else if score ≤ 40 then ("Distributing", "Medium")
      else ("Neutral", "Medium")
    ⟨score, sigconf.1,
      (inst_s1 df).2 ++ (inst_s2 df).2 ++ (inst_s3 df).2 ++ (inst_s4 df).2 ++
        (inst_s5 df).2,
      sigconf.2, some (round2 (inst_vol_ratio df))⟩

/-- The fields of the `technicals` dictionary read by
`calculate_breakout_score`. -/
structure BreakoutTechIn where
  atr_pct : Option ℚ
  bollinger_squeeze : Bool
  rsi : Option ℚ
  deriving Repr, DecidableEq

structure BreakoutResult where
  score : ℤ
  signals : List String
  confidence : String
  pattern : String
  deriving Repr, DecidableEq

/-- Pre-breakout sub-signal 1 (scoring.py lines 171-184): volume
accumulation without a price move. -/
def breakout_s1 (df : List Bar) : ℤ × List String :=
  let cs := closes df
  let vs := volumes df
  if df.length ≥ 30 then
    let recent_vol := listMean (lastN vs 10)
    let prior_vol := listMean (sliceNeg vs 30 10)
    let c1 := (lastQ cs).getD 0
    let c10 := (ilocNeg cs 10).getD 0
    let recent_price_change := (c1 - c10) / c10 * 100
    if prior_vol > 0 then
      let vol_increase := recent_vol / prior_vol
      if vol_increase > 1.5 ∧ |recent_price_change| < 5 then
        (20, ["Stealth accumulation"])
      else if vol_increase > 1.3 ∧ |recent_price_change| < 8 then
        (12, ["Quiet accumulation detected"])
      else (0, [])
    else (0, [])
  else (0, [])

/-- Pre-breakout sub-signal 2 (lines 186-197): tight trading range. -/
def breakout_s2 (df : List Bar) : ℤ × List String :=
  if df.length ≥ 15 then
    let range_high := listMax (lastN (highsOf df) 15)
    let range_low := listMin (lastN (lowsOf df) 15)
    let range_pct := (range_high - range_low) / range_low * 100
    if range_pct < 10 then (15, ["Tight consolidation"])
    else if range_pct < 15 then (8, ["Narrow trading range"])
    else (0, [])
  else (0, [])

/-- Pre-breakout sub-signal 3 (lines 199-210): higher-lows pattern.  The
loop runs for `i ∈ {0, 5}` (its bound is `min(10, n-5)`, and `n ≥ 15` holds
whenever the block's guard does within the `n ≥ 30` caller). -/
def breakout_s3 (df : List Bar) : ℤ × List String :=
  let ls := lowsOf df
  let n := df.length
  if n ≥ 15 then
    let pl1a := listMin (lastN ls 5)
    let pl2a := if n ≥ 10 then listMin (sliceNeg ls 10 5) else listMin (lastN ls 5)
    let pl1b := listMin (sliceNeg ls 10 5)
    let pl2b := if n ≥ 15 then listMin (sliceNeg ls 15 10)
                else listMin (sliceNeg ls 10 5)
    let higher_lows := (if pl1a > pl2a then 1 else 0) +
                       (if pl1b > pl2b then 1 else 0)
    if higher_lows ≥ 2 then (10, ["Higher lows pattern forming"]) else (0, [])
  else (0, [])

/-- Pre-breakout sub-signal 4 (lines 212-220): volume dry-up then spike. -/
def breakout_s4 (df : List Bar) : ℤ × List String :=
  let vs := volumes df
  if df.length ≥ 20 then
    let avg_vol := listMean (lastN vs 20)
    if avg_vol > 0 then
      let recent_spike := (lastQ vs).getD 0 > avg_vol * 1.5
      let prior_quiet := listMean (sliceNeg vs 6 1) < avg_vol * 0.8
      if recent_spike ∧ prior_quiet then
        (15, ["Volume spike after quiet period"])
      else (0, [])
    else (0, [])
  else (0, [])

/-- Pre-breakout sub-signal 5 (lines 222-227): low ATR percentage. -/
def breakout_s5 (t : BreakoutTechIn) : ℤ × List String :=
  match t.atr_pct with
  | some a => if a < 2 then (12, ["Volatility compression"]) else (0, [])
  | none => (0, [])

/-- Pre-breakout sub-signal 6 (lines 229-232): Bollinger squeeze flag. -/
def breakout_s6 (t : BreakoutTechIn) : ℤ × List String :=
  if t.bollinger_squeeze then (15, ["Bollinger Band squeeze detected"])
  else (0, [])

/-- Pre-breakout sub-signal 7 (lines 234-237): RSI in the healthy zone
(appends no signal string). -/
def breakout_s7 (t : BreakoutTechIn) : ℤ :=
  match t.rsi with
  | some r => if 50 ≤ r ∧ r ≤ 70 then 8 else 0
  | none => 0

/-- The raw additive pre-breakout score and signal list (scoring.py lines
163-237), in source order, before the 0.70 normalization. -/
def breakout_raw (df : List Bar) (t : BreakoutTechIn) : ℤ × List String :=
  ((breakout_s1 df).1 + (breakout_s2 df).1 + (breakout_s3 df).1 +
     (breakout_s4 df).1 + (breakout_s5 t).1 + (breakout_s6 t).1 +
     breakout_s7 t,
   (breakout_s1 df).2 ++ (breakout_s2 df).2 ++ (breakout_s3 df).2 ++
     (breakout_s4 df).2 ++ (breakout_s5 t).2 ++ (breakout_s6 t).2)

/-- `calculate_breakout_score` (core/scoring.py lines 154-262). -/
def calculate_breakout_score (df : List Bar) (t : BreakoutTechIn) :
    BreakoutResult :=
  if df.length < 30 then ⟨0, [], "Low", "Insufficient Data"⟩
  else
    let raw := breakout_raw df t
    let normalized := min (pyRound ((raw.1 : ℚ) * 0.70)) 100
    let confpat : String × String :=
      if normalized ≥ 75 then ("Very High", "EXTREME BREAKOUT PROBABILITY")
      else if normalized ≥ 65 then ("High", "HIGH PROBABILITY BREAKOUT")
      else if normalized ≥ 50 then ("Medium", "Pre-Breakout Building")
      else if normalized ≥ 30 then ("Low", "Early Accumulation")
      else ("Low", "No Clear Pattern")
    ⟨normalized, raw.2, confpat.1, confpat.2⟩

structure OverallResult where
  score : ℤ
  reasons : List String
  ema_score : ℤ
  institutional_score : ℤ
  breakout_score : ℤ
  deriving Repr, DecidableEq

/-- `calculate_overall_score` (core/scoring.py lines 269-369). -/
def calculate_overall_score (technicals : Technicals) (inst : InstFlow)
    (breakout : BreakoutResult) : OverallResult :=
  let ema_score := technicals.ema_score
  let p1 : ℚ := (ema_score : ℚ) * 0.35
  let r1 : List String :=
    if ema_score ≥ 70 then ["Strong EMA alignment"]
    else if ema_score ≥ 50 then ["Moderate EMA alignment"] else []
  let bullish_emas :=
    (technicals.emas_latest.filter (fun v => technicals.price > v)).length
  let p2 : ℚ := if bullish_emas ≥ 3 then 8 else 0
  let r2 : List String := if bullish_emas ≥ 3 then ["Price above multiple EMAs"] else []
  let inst_score := inst.score
  let p3 : ℚ := if inst_score ≥ 70 then 18 else if inst_score ≥ 55 then 10
    else if inst_score ≤ 30 then -10 else 0
  let r3 : List String :=
    if inst_score ≥ 70 then ["Strong institutional accumulation"]
    else if inst_score ≥ 55 then ["Moderate accumulation"]
    else if inst_score ≤ 30 then ["Distribution detected"] else []
  let breakout_score := breakout.score
  let p4 : ℚ := if breakout_score ≥ 50 then 8 else if breakout_score ≥ 35 then 5
    else if breakout_score ≥ 20 then 3 else 0
  let r4 : List String := if breakout_score ≥ 50 then ["Pre-breakout setup"] else []
  let mom_5d := technicals.momentum_5d
  let p5 : ℚ := if mom_5d > 10 then 4 else if mom_5d > 5 then 2
    else if mom_5d > 0 then 1 else 0
  let mom_20d := technicals.momentum_20d
  let p6 : ℚ := if mom_20d > 15 then 8 else if mom_20d > 10 then 5 else 0
  let r6 : List String := if mom_20d > 15 then ["Strong 20d momentum"] else []
  let vol_ratio := technicals.volume_ratio
  let p7 : ℚ := if vol_ratio > 2 then 12 else if vol_ratio > 1.5 then 8 else 0
  let r7 : List String := if vol_ratio > 2 then ["High volume"] else []
  let p8 : ℚ := match technicals.rsi with
    | some r => if 50 ≤ r ∧ r ≤ 70 then 8 else if 70 < r ∧ r < 80 then 4 else 0
    | none => 0
  let r8 : List String := match technicals.rsi with
    | some r => if r < 30 ∧ ¬ (50 ≤ r ∧ r ≤ 70) ∧ ¬ (70 < r ∧ r < 80) then
        ["RSI oversold"] else []
    | none => []
  let total : ℚ := p1 + p2 + p3 + p4 + p5 + p6 + p7 + p8
  { score := max 0 (min (pyRound total) 100)
    reasons := r1 ++ r2 ++ r3 ++ r4 ++ r6 ++ r7 ++ r8
    ema_score := ema_score
    institutional_score := inst_score
    breakout_score := breakout_score }

-- ──────────────────────────────────────────────────────────────────────────
-- core/fundamentals.py — moat score and growth score
-- ──────────────────────────────────────────────────────────────────────────

/-- The fields of the `financials` dictionary read by `calculate_moat_score`
and `calculate_growth_score` (`none` = missing or `None`). -/
structure Financials where
  gross_margin : Option ℚ
  roe : Option ℚ
  revenue_growth : Option ℚ
  debt_to_equity : Option ℚ
  free_cash_flow : Option ℚ
  revenue : Option ℚ
  cash_conversion_ratio : Option ℚ
  roic : Option ℚ
  operating_margin : Option ℚ
  current_ratio : Option ℚ
  deriving Repr, DecidableEq

structure CompanyDetails where
  market_cap : Option ℚ
  deriving Repr, DecidableEq

/-- The 8 moat factors in `MOAT_FACTOR_WEIGHTS` insertion order
(grossMargin, roe, revenueGrowth, lowDebt, marketPosition, fcf, ccr, roic),
each paired with its configured weight from config/settings.py.  A factor is
`none` when its input data is missing (for market position also when the
market cap is falsy, per `if market_cap:`). -/
def moat_factors (f : Financials) (cd : CompanyDetails) : List (Option ℤ × ℤ) :=
  [ (f.gross_margin.map (fun gm =>
      if gm > 60 then 20 else if gm > 40 then 15 else if gm > 25 then 8
      else if gm > 15 then 4 else 0), 20),
    (f.roe.map (fun roe =>
      if roe > 20 then 15 else if roe > 15 then 12 else if roe > 10 then 7
      else if roe > 5 then 3 else 0), 15),
    (f.revenue_growth.map (fun g =>
      if g > 15 then 12 else if g > 8 then 8 else if g > 0 then 4 else 0), 12),
    (f.debt_to_equity.map (fun de =>
      if de < 0.3 then 13 else if de < 0.5 then 10 else if de < 1 then 7
      else if de < 2 then 3 else 0), 13),
    (cd.market_cap.bind (fun mc =>
      if mc = 0 then none
      else some (if mc > 50000000000 then 12 else if mc > 10000000000 then 8
        else if mc > 2000000000 then 4 else 2)), 12),
    (f.free_cash_flow.map (fun fcf =>
      if fcf > 0 then
        let revenue := pyOrDefault f.revenue 0
        if revenue > 0 ∧ fcf / revenue > 0.15 then 8 else 5
      else 0), 8),
    (f.cash_conversion_ratio.map (fun ccr =>
      if ccr > 1.2 then 10 else if ccr > 1 then 8 else if ccr > 0.8 then 5
      else if ccr > 0.5 then 2 else 0), 10),
    (f.roic.map (fun r =>
      if r > 20 then 10 else if r > 15 then 8 else if r > 10 then 5
      else if r > 5 then 2 else 0), 10) ]

/-- `total_score`: sum of the point values of the available factors. -/
def moat_total_score (f : Financials) (cd : CompanyDetails) : ℤ :=
  ((moat_factors f cd).filterMap Prod.fst).sum

/-- `max_possible`: sum of the configured weights of the available factors. -/
def moat_max_possible (f : Financials) (cd : CompanyDetails) : ℤ :=
  (((moat_factors f cd).filter (fun p => p.1.isSome)).map Prod.snd).sum

structure MoatResult where
  moat_score : Option ℤ
  moat_rating : String
  deriving Repr, DecidableEq

/-- `calculate_moat_score` (core/fundamentals.py lines 149-306). -/
def calculate_moat_score (f : Financials) (cd : CompanyDetails) : MoatResult :=
  let total := moat_total_score f cd
  let maxp := moat_max_possible f cd
  let normalized : Option ℤ :=
    if maxp > 0 then some (pyRound ((total : ℚ) / (maxp : ℚ) * 100)) else none
  let rating := match normalized with
    | none => "No Moat"
    | some v => if v ≥ 75 then "Wide Moat"
        else if v ≥ 55 then "Narrow Moat" else "No Moat"
  ⟨normalized, rating⟩

/-- `calculate_growth_score` (core/fundamentals.py lines 441-469). -/
def calculate_growth_score (f : Financials) : ℤ :=
  let s1 : ℤ := match f.revenue_growth with
    | some g => if g > 20 then 20 else if g > 10 then 10
        else if g < 0 then -10 else 0
    | none => 0
  let s2 : ℤ := match f.operating_margin with
    | some m => if m > 20 then 15 else if m > 10 then 8 else 0
    | none => 0
  let s3 : ℤ := match f.roe with
    | some r => if r > 15 then 10 else 0
    | none => 0
  let s4 : ℤ := match f.current_ratio with
    | some c => if c > 1.5 then 5 else 0
    | none => 0
  max 0 (min 100 (50 + s1 + s2 + s3 + s4))

-- ──────────────────────────────────────────────────────────────────────────
-- core/backtesting.py
-- ──────────────────────────────────────────────────────────────────────────

structure ForwardResult where
  outcome : String
  exit_price : ℚ
  return_pct : ℚ
  days_held : ℕ
  max_favorable : ℚ
  max_adverse : ℚ
  deriving Repr, DecidableEq

/-- The forward-simulation loop of `check_forward_performance` over the
forward bars.  `dayOffset` is `j - signal_idx`; `daysHeld`, `maxFav`,
`maxAdv`, `exitP` are the running accumulators. -/
def forwardWalk (entry target stop : ℚ) :
    List Bar → ℕ → ℚ → ℚ → ℚ → ℕ → String × ℚ × ℕ × ℚ × ℚ
  | [], _, maxFav, maxAdv, exitP, daysHeld =>
    ("TIMEOUT", exitP, daysHeld, maxFav, maxAdv)
  | b :: rest, dayOffset, maxFav, maxAdv, _exitP, _ =>
    let favorable := (b.high - entry) / entry * 100
    let adverse := (entry - b.low) / entry * 100
    let maxFav := max maxFav favorable
    let maxAdv := max maxAdv adverse
    -- stop checked first (worst case), then target
    if b.low ≤ stop then ("LOSS", stop, dayOffset, maxFav, maxAdv)
    else if b.high ≥ target then ("WIN", target, dayOffset, maxFav, maxAdv)
    else forwardWalk entry target stop rest (dayOffset + 1) maxFav maxAdv
      b.close dayOffset

/-- `check_forward_performance` (core/backtesting.py lines 155-222). -/
def check_forward_performance (df : List Bar) (signal_idx : ℕ)
    (entry_price target_pct stop_pct : ℚ) (max_days : ℕ) : ForwardResult :=
  let target_price := entry_price * (1 + target_pct / 100)
  let stop_price := entry_price * (1 - stop_pct / 100)
  let end_idx := min (signal_idx + max_days + 1) df.length
  let fwd := (df.take end_idx).drop (signal_idx + 1)
  let r := forwardWalk entry_price target_price stop_price fwd 1 0 0
    entry_price 0
  { outcome := r.1
    exit_price := round2 r.2.1
    return_pct := round2 ((r.2.1 - entry_price) / entry_price * 100)
    days_held := r.2.2.1
    max_favorable := round2 r.2.2.2.1
    max_adverse := round2 r.2.2.2.2 }

/-- The backtest configuration fields used by `run_backtest`
(`min_pre_breakout_score` is configured but never read). -/
structure BacktestConfig where
  holding_period_days : ℕ
  target_percent : ℚ
  stop_percent : ℚ
  min_overall_score : ℚ
  min_bars_required : ℕ
  deriving Repr, DecidableEq

/-- Defaults from config/signals.py `BACKTEST_CONFIG`. -/
def BACKTEST_CONFIG : BacktestConfig := ⟨60, 10, 15, 15, 50⟩

def buySideActions : List String :=
  ["STRONG BUY", "ACCUMULATE", "BUY DIP", "SPECULATIVE BUY"]

structure Trade where
  entry_price : ℚ
  action : String
  confidence : String
  overall_score : ℤ
  ema_score : ℤ
  rsi : Option ℚ
  institutional_score : ℤ
  breakout_score : ℤ
  bollinger_squeeze : Bool
  forward : ForwardResult
  deriving Repr, DecidableEq

/-- The `stock_data` dictionary built in `run_backtest` (lines 94-103). -/
def backtest_stock_data (overall : OverallResult) (tech : Technicals)
    (inst : InstFlow) (br : BreakoutResult) : StockData :=
  { score := some (overall.score : ℚ)
    ema_score := some (tech.ema_score : ℚ)
    rsi := tech.rsi
    institutional_score := some (inst.score : ℚ)
    breakout_score := some (br.score : ℚ)
    momentum_5d := some tech.momentum_5d
    momentum_20d := some tech.momentum_20d
    bollinger_squeeze := tech.bollinger_squeeze }

/-- One iteration of the signal-scan loop of `run_backtest` (core/
backtesting.py lines 69-131) at bar index `i`: `some trade` exactly when the
iteration appends a trade.  Mirrors, in order: the window-length guard, the
empty-technicals guard, the EMA-score quick filter (`score =
technicals.get("ema_score", 0)` compared against `min_score`), the overall
score gate, and the buy-side action gate. -/
def backtest_signal (sqOracle : List Bar → Bool) (df : List Bar) (i : ℕ)
    (cfg : BacktestConfig) : Option Trade :=
  let window := df.take (i + 1)
  if window.length < 30 then none
  else
    match calculate_all_technicals sqOracle window with
    | none => none
    | some tech =>
      if (tech.ema_score : ℚ) < cfg.min_overall_score then none
      else
        let inst := calculate_institutional_flow window
        let br := calculate_breakout_score window
          ⟨tech.atr_pct, tech.bollinger_squeeze, tech.rsi⟩
        let overall := calculate_overall_score tech inst br
        if (overall.score : ℚ) < cfg.min_overall_score then none
        else
          let sd := backtest_stock_data overall tech inst br
          let rcm := generate_recommendation sd
          if rcm.action ∈ buySideActions then
            let entry := ((df.get? i).map Bar.close).getD 0
            some ⟨entry, rcm.action, rcm.confidence, overall.score,
              tech.ema_score, tech.rsi, inst.score, br.score,
              tech.bollinger_squeeze,
              check_forward_performance df i entry cfg.target_percent
                cfg.stop_percent cfg.holding_period_days⟩
          else none

/-- The bar indices evaluated by the walk:
`range(min_bars, len(df) - holding_days, 5)`. -/
def evaluated_indices (cfg : BacktestConfig) (n : ℕ) : List ℕ :=
  (List.range n).filter (fun i =>
    cfg.min_bars_required ≤ i ∧ i + cfg.holding_period_days < n ∧
    (i - cfg.min_bars_required) % 5 = 0)

/-- The per-ticker portion of `run_backtest`: the trades collected for one
price series (the network fetch, rate limiting and aggregate statistics
around it are I/O plumbing outside the claims). -/
def run_backtest_ticker (sqOracle : List Bar → Bool) (df : List Bar)
    (cfg : BacktestConfig) : List Trade :=
  if df.length < cfg.min_bars_required + cfg.holding_period_days then []
  else (evaluated_indices cfg df.length).filterMap
    (fun i => backtest_signal sqOracle df i cfg)

/-- The full per-bar recomputation of the pipeline performed by the signal
loop of `run_backtest` (lines 75-103), without the gates: the `stock_data`
dictionary the loop builds for the truncated window, or `none` when the
technicals are empty. -/
def signal_stock_data (sqOracle : List Bar → Bool) (window : List Bar) :
    Option StockData :=
  (calculate_all_technicals sqOracle window).map (fun tech =>
    let inst := calculate_institutional_flow window
    let br := calculate_breakout_score window
      ⟨tech.atr_pct, tech.bollinger_squeeze, tech.rsi⟩
    let overall := calculate_overall_score tech inst br
    backtest_stock_data overall tech inst br)

/-- The overall score the signal loop computes for a window. -/
def signal_overall (sqOracle : List Bar → Bool) (window : List Bar) :
    Option OverallResult :=
  (calculate_all_technicals sqOracle window).map (fun tech =>
    calculate_overall_score tech (calculate_institutional_flow window)
      (calculate_breakout_score window
        ⟨tech.atr_pct, tech.bollinger_squeeze, tech.rsi⟩))

/-- The recommendation action the signal loop computes for a window. -/
def signal_action (sqOracle : List Bar → Bool) (window : List Bar) :
    Option String :=
  (signal_stock_data sqOracle window).map
    (fun sd => (generate_recommendation sd).action)

-- ──────────────────────────────────────────────────────────────────────────
-- Concrete price series used by the counterexample for the backtest entry
-- gate: a 51-bar window (old up-trend, flat middle, 20-bar crash with two
-- tiny high-volume up-days and a volume spike on the last bar) followed by
-- 60 flat forward bars.
-- ──────────────────────────────────────────────────────────────────────────

def c3closes : List ℚ :=
  [100, 102.5, 105, 107.5, 110, 112.5, 115, 117.5, 120, 122.5,
   125, 127.5, 130, 132.5, 135, 137.5, 140, 142.5, 145, 147.5,
   150, 150, 150, 150, 150, 150, 150, 150, 150, 150,
   147.4, 144.8, 144.9, 142.3, 142.4, 139.8, 137.2, 134.6, 132, 129.4,
   126.8, 124.2, 121.6, 119, 116.4, 113.8, 111.2, 108.6, 106, 103.4,
   100.8]

def c3vols : List ℚ :=
  (List.range 51).map (fun t =>
    if t = 32 ∨ t = 34 then 1000000 else if t = 50 then 250000 else 1000)

/-- Each bar closes at its high, one point above its low. -/
def c3window : List Bar :=
  (c3closes.zip c3vols).map (fun p => ⟨p.1, p.1 - 1, p.1, p.2⟩)

def c3forward : List Bar := List.replicate 60 ⟨100.5, 99.5, 100, 1000⟩

def c3df : List Bar := c3window ++ c3forward

/-- Squeeze oracle for windows shorter than 120 bars (where the source
short-circuits the flag to `False` anyway). -/
def noSqueeze : List Bar → Bool := fun _ => false

-- ──────────────────────────────────────────────────────────────────────────
-- Theorems
-- ──────────────────────────────────────────────────────────────────────────

-- The Batteries rational-number operations are `@[irreducible]`, which
-- blocks elaborator-side evaluation of concrete instances (the kernel is
-- unaffected); restore default reducibility locally for this development.
attribute [local semireducible] Rat.add Rat.mul Rat.inv Rat.sub Rat.ofScientific

lemma stackPoints_nonneg (l : List ℚ) : 0 ≤ stackPoints l := by
  induction l with
  | nil => simp [stackPoints]
  | cons a t ih =>
    cases t with
    | nil => simp [stackPoints]
    | cons b r =>
      simp only [stackPoints] at ih ⊢
      split_ifs <;> omega

lemma pyRound_nonneg {q : ℚ} (h : 0 ≤ q) : 0 ≤ pyRound q := by
  have hf : (0 : ℤ) ≤ ⌊q⌋ := Int.floor_nonneg.mpr h
  simp only [pyRound]
  split_ifs <;> omega

lemma pyRound_cast_le (q : ℚ) : (pyRound q : ℚ) ≤ q + 1/2 := by
  have h1 : (⌊q⌋ : ℚ) ≤ q := Int.floor_le q
  simp only [pyRound]
  split_ifs with hr hr2 he <;> push_cast <;> [linarith; linarith [le_of_not_lt hr]; linarith; linarith]

/-- C1: `generate_recommendation` returns exactly one of the 9 actions, and
whenever the (extracted) RSI exceeds 70 the cascade short-circuits to
TAKE PROFITS with High confidence regardless of every other input field. -/
theorem recommendation_cascade (sd : StockData) :
    (generate_recommendation sd).action ∈
      ["STRONG BUY", "ACCUMULATE", "BUY DIP", "SPECULATIVE BUY", "WATCH",
       "HOLD", "REDUCE", "TAKE PROFITS", "SELL"] ∧
    (pyOrDefault sd.rsi 50 > 70 →
      (generate_recommendation sd).action = "TAKE PROFITS" ∧
      (generate_recommendation sd).confidence = "HIGH") := by
  constructor
  · simp only [generate_recommendation]
    split_ifs <;> simp
  · intro h
    simp [generate_recommendation, h]

/-- Stock data of C1's concrete test: ema_score 90, score 90, RSI 75. -/
def c1sd : StockData := ⟨some 90, some 75, some 90, none, none, none, none, false⟩

/-- C1 witness: at ema_score 90, score 90, RSI 75 the action is
TAKE PROFITS (not STRONG BUY) with HIGH confidence. -/
theorem recommendation_cascade_witness :
    (generate_recommendation c1sd).action = "TAKE PROFITS" ∧
    (generate_recommendation c1sd).confidence = "HIGH" :=
  (recommendation_cascade c1sd).2 (by decide)

/-- C4: the expected return is `base_avg_return * (1 + total_adjustment)`
with no clamping afterwards — for some inputs it is negative, outside the
[0,1] interval that clamping (as applied to `win_probability`) would give —
while `win_probability` is always clamped into [0,1]. -/
theorem expected_return_unclamped :
    (∀ (action : String) (sd : StockData),
      (calculate_win_probability action sd).expected_return =
        (SIGNAL_WIN_RATES action).avg_return *
          (1 + (calculate_win_probability action sd).total_adjustment)) ∧
    (∀ (action : String) (sd : StockData),
      0 ≤ (calculate_win_probability action sd).win_probability ∧
      (calculate_win_probability action sd).win_probability ≤ 1) ∧
    (∃ (action : String) (sd : StockData),
      (calculate_win_probability action sd).expected_return < 0 ∧
      (calculate_win_probability action sd).expected_return ≠
        max 0 (min 1 ((calculate_win_probability action sd).expected_return))) := by
  refine ⟨fun a sd => rfl,
    fun a sd => ⟨le_max_left _ _, max_le (by norm_num) (min_le_left _ _)⟩,
    "SELL", ⟨none, none, none, none, none, none, none, false⟩, by decide, by decide⟩

/-- C5: the 8 win-probability adjustments are independent (for
ema_score ≥ 70 both the "EMA Score 70+" +0.085 and the "Bullish Trend"
+0.03 entries fire), the total adjustment is the sum of the fired entries,
and the final probability is the clamped base-plus-total. -/
theorem win_probability_adjustments (action : String) (sd : StockData) :
    ((calculate_win_probability action sd).win_probability =
      max 0 (min 1 ((SIGNAL_WIN_RATES action).win_rate +
        (calculate_win_probability action sd).total_adjustment))) ∧
    ((calculate_win_probability action sd).total_adjustment =
      (((calculate_win_probability action sd).adjustments).map Prod.snd).sum) ∧
    (pyOrDefault sd.ema_score 0 ≥ 70 →
      ("EMA Score 70+", ADJ_ema_high) ∈
        (calculate_win_probability action sd).adjustments ∧
      ("Bullish Trend", ADJ_trend_bullish) ∈
        (calculate_win_probability action sd).adjustments) := by
  refine ⟨rfl, rfl, fun h => ?_⟩
  have h60 : pyOrDefault sd.ema_score 0 ≥ 60 := le_trans (by norm_num) h
  constructor <;> simp [calculate_win_probability, h, h60]

/-- Stock data with ema_score 80 for C5's witness. -/
def c5sd : StockData := ⟨none, none, some 80, none, none, none, none, false⟩

/-- C5 witness: at ema_score 80 both EMA adjustments fire simultaneously. -/
theorem win_probability_adjustments_witness :
    ("EMA Score 70+", ADJ_ema_high) ∈
      (calculate_win_probability "HOLD" c5sd).adjustments ∧
    ("Bullish Trend", ADJ_trend_bullish) ∈
      (calculate_win_probability "HOLD" c5sd).adjustments :=
  (win_probability_adjustments "HOLD" c5sd).2.2 (by decide)

-- Bound lemmas for the additive score components.

lemma ema_above_nonneg (emas : EmaDict) (price : ℚ) : 0 ≤ ema_above emas price := by
  simp only [ema_above]
  positivity

lemma ema_prox_nonneg (emas : EmaDict) (price : ℚ) : 0 ≤ ema_prox emas price := by
  simp only [ema_prox]
  cases lastQ emas.e8 with
  | none => norm_num
  | some v =>
    dsimp only
    split_ifs <;> norm_num

lemma ema_trend8_nonneg (emas : EmaDict) : 0 ≤ ema_trend8 emas := by
  simp only [ema_trend8]; split_ifs <;> norm_num

lemma ema_trend21_nonneg (emas : EmaDict) : 0 ≤ ema_trend21 emas := by
  simp only [ema_trend21]; split_ifs <;> norm_num

lemma breakout_s1_bounds (df : List Bar) :
    0 ≤ (breakout_s1 df).1 ∧ (breakout_s1 df).1 ≤ 20 := by
  simp only [breakout_s1]; split_ifs <;> norm_num

lemma breakout_s2_bounds (df : List Bar) :
    0 ≤ (breakout_s2 df).1 ∧ (breakout_s2 df).1 ≤ 15 := by
  simp only [breakout_s2]; split_ifs <;> norm_num

lemma breakout_s3_bounds (df : List Bar) :
    0 ≤ (breakout_s3 df).1 ∧ (breakout_s3 df).1 ≤ 10 := by
  simp only [breakout_s3]; split_ifs <;> norm_num

lemma breakout_s4_bounds (df : List Bar) :
    0 ≤ (breakout_s4 df).1 ∧ (breakout_s4 df).1 ≤ 15 := by
  simp only [breakout_s4]; split_ifs <;> norm_num

lemma breakout_s5_bounds (t : BreakoutTechIn) :
    0 ≤ (breakout_s5 t).1 ∧ (breakout_s5 t).1 ≤ 12 := by
  simp only [breakout_s5]
  cases t.atr_pct with
  | none => norm_num
  | some a =>
    dsimp only
    split_ifs <;> norm_num

lemma breakout_s6_bounds (t : BreakoutTechIn) :
    0 ≤ (breakout_s6 t).1 ∧ (breakout_s6 t).1 ≤ 15 := by
  simp only [breakout_s6]; split_ifs <;> norm_num

lemma breakout_s7_bounds (t : BreakoutTechIn) :
    0 ≤ breakout_s7 t ∧ breakout_s7 t ≤ 8 := by
  simp only [breakout_s7]
  cases t.rsi with
  | none => norm_num
  | some r =>
    dsimp only
    split_ifs <;> norm_num

lemma breakout_raw_bounds (df : List Bar) (t : BreakoutTechIn) :
    0 ≤ (breakout_raw df t).1 ∧ (breakout_raw df t).1 ≤ 95 := by
  have h1 := breakout_s1_bounds df
  have h2 := breakout_s2_bounds df
  have h3 := breakout_s3_bounds df
  have h4 := breakout_s4_bounds df
  have h5 := breakout_s5_bounds t
  have h6 := breakout_s6_bounds t
  have h7 := breakout_s7_bounds t
  simp only [breakout_raw]
  omega

/-- The forward-walk loop resolves LOSS at the stop price on the first
reached bar whose low is at or below the stop, for any accumulator state. -/
lemma forwardWalk_stop_first (entry target stop : ℚ) (pre : List Bar)
    (b : Bar) (rest : List Bar)
    (hpre : ∀ p ∈ pre, ¬ p.low ≤ stop ∧ ¬ p.high ≥ target)
    (hstop : b.low ≤ stop) :
    ∀ (d : ℕ) (mf ma ex : ℚ) (dh : ℕ),
      (forwardWalk entry target stop (pre ++ b :: rest) d mf ma ex dh).1 =
        "LOSS" ∧
      (forwardWalk entry target stop (pre ++ b :: rest) d mf ma ex dh).2.1 =
        stop := by
  induction pre with
  | nil =>
    intro d mf ma ex dh
    simp [forwardWalk, hstop]
  | cons p pre ih =>
    intro d mf ma ex dh
    have hp := hpre p (List.mem_cons_self p pre)
    simp only [List.cons_append, forwardWalk, if_neg hp.1, if_neg hp.2]
    exact ih (fun q hq => hpre q (List.mem_cons_of_mem p hq)) _ _ _ _ _

/-- C2: `check_forward_performance` resolves LOSS at the stop price on the
first reached bar whose low is at or below the stop, even when that same
bar's high also reaches the target (stop-first tie-break). -/
theorem forward_simulation_stop_first
    (df : List Bar) (signal_idx : ℕ) (entry_price target_pct stop_pct : ℚ)
    (max_days : ℕ) (pre : List Bar) (b : Bar) (rest : List Bar)
    (hsplit : ((df.take (min (signal_idx + max_days + 1) df.length)).drop
      (signal_idx + 1)) = pre ++ b :: rest)
    (hpre : ∀ p ∈ pre, ¬ p.low ≤ entry_price * (1 - stop_pct / 100) ∧
      ¬ p.high ≥ entry_price * (1 + target_pct / 100))
    (hstop : b.low ≤ entry_price * (1 - stop_pct / 100))
    (htarget : b.high ≥ entry_price * (1 + target_pct / 100)) :
    (check_forward_performance df signal_idx entry_price target_pct stop_pct
      max_days).outcome = "LOSS" ∧
    (check_forward_performance df signal_idx entry_price target_pct stop_pct
      max_days).exit_price = round2 (entry_price * (1 - stop_pct / 100)) := by
  have h := forwardWalk_stop_first entry_price
    (entry_price * (1 + target_pct / 100))
    (entry_price * (1 - stop_pct / 100)) pre b rest hpre hstop 1 0 0
    entry_price 0
  simp only [check_forward_performance, hsplit]
  exact ⟨h.1, by rw [h.2]⟩

/-- Two bars for C2's concrete case: the signal bar, then a forward bar
with low 80 and high 115 around entry 100. -/
def c2df : List Bar := [⟨100, 99, 100, 1000⟩, ⟨115, 80, 90, 1000⟩]

/-- C2 witness: entry 100, target +10 percent (110), stop −15 percent (85),
forward bar with low 80 and high 115 resolves LOSS with exit price 85. -/
theorem forward_simulation_stop_first_witness :
    (check_forward_performance c2df 0 100 10 15 5).outcome = "LOSS" ∧
    (check_forward_performance c2df 0 100 10 15 5).exit_price = 85 := by
  have h := forward_simulation_stop_first c2df 0 100 10 15 5 []
    ⟨115, 80, 90, 1000⟩ [] (by decide) (by simp) (by decide) (by decide)
  exact ⟨h.1, by rw [h.2]; decide⟩

lemma clamp_int_0_100 (x : ℤ) :
    0 ≤ max 0 (min 100 x) ∧ max 0 (min 100 x) ≤ 100 :=
  ⟨le_max_left _ _, max_le (by norm_num) (min_le_left _ _)⟩

lemma clamp_int_0_100' (x : ℤ) :
    0 ≤ max 0 (min x 100) ∧ max 0 (min x 100) ≤ 100 :=
  ⟨le_max_left _ _, max_le (by norm_num) (min_le_right _ _)⟩

/-- C6: every 0-100 score stays in range for all inputs — the EMA score,
the institutional-flow score, the breakout score, the overall score and the
growth score are in [0,100], and the win probability is in [0,1]. -/
theorem score_bounds :
    (∀ (emas : EmaDict) (price : ℚ),
      0 ≤ calculate_ema_score emas price ∧
      calculate_ema_score emas price ≤ 100) ∧
    (∀ df : List Bar,
      0 ≤ (calculate_institutional_flow df).score ∧
      (calculate_institutional_flow df).score ≤ 100) ∧
    (∀ (df : List Bar) (t : BreakoutTechIn),
      0 ≤ (calculate_breakout_score df t).score ∧
      (calculate_breakout_score df t).score ≤ 100) ∧
    (∀ (tech : Technicals) (inst : InstFlow) (br : BreakoutResult),
      0 ≤ (calculate_overall_score tech inst br).score ∧
      (calculate_overall_score tech inst br).score ≤ 100) ∧
    (∀ f : Financials,
      0 ≤ calculate_growth_score f ∧ calculate_growth_score f ≤ 100) ∧
    (∀ (action : String) (sd : StockData),
      0 ≤ (calculate_win_probability action sd).win_probability ∧
      (calculate_win_probability action sd).win_probability ≤ 1) := by
  refine ⟨fun emas price => ?_, fun df => ?_, fun df t => ?_,
    fun tech inst br => ?_, fun f => ?_,
    fun action sd => ⟨le_max_left _ _, max_le (by norm_num) (min_le_left _ _)⟩⟩
  · simp only [calculate_ema_score]
    split_ifs with h
    · norm_num
    · have h1 := ema_above_nonneg emas price
      have h2 := stackPoints_nonneg (emaLatestList emas)
      have h3 := ema_prox_nonneg emas price
      have h4 := ema_trend8_nonneg emas
      have h5 := ema_trend21_nonneg emas
      exact ⟨le_min (by omega) (by norm_num), min_le_right _ _⟩
  · by_cases h : df.length < 20
    · simp [calculate_institutional_flow, h]
    · simp only [calculate_institutional_flow, if_neg h]
      exact clamp_int_0_100 _
  · by_cases h : df.length < 30
    · simp [calculate_breakout_score, h]
    · have hraw := (breakout_raw_bounds df t).1
      have hq : (0 : ℚ) ≤ ((breakout_raw df t).1 : ℚ) * 0.70 := by
        have : (0 : ℚ) ≤ ((breakout_raw df t).1 : ℚ) := by exact_mod_cast hraw
        nlinarith
      simp only [calculate_breakout_score, if_neg h]
      exact ⟨le_min (pyRound_nonneg hq) (by norm_num), min_le_right _ _⟩
  · exact clamp_int_0_100' _
  · simp only [calculate_growth_score]
    exact clamp_int_0_100 _

/-- C7: sub-engines return fixed neutral defaults on short input —
`calculate_all_technicals` is empty exactly when fewer than 30 bars exist;
`calculate_institutional_flow` with fewer than 20 bars returns score 50,
Neutral, empty signals list and Low confidence; `calculate_breakout_score`
with fewer than 30 bars returns score 0 with pattern "Insufficient Data". -/
theorem short_input_defaults :
    (∀ (orc : List Bar → Bool) (df : List Bar),
      calculate_all_technicals orc df = none ↔ df.length < 30) ∧
    (∀ df : List Bar, df.length < 20 →
      calculate_institutional_flow df = ⟨50, "Neutral", [], "Low", none⟩) ∧
    (∀ (df : List Bar) (t : BreakoutTechIn), df.length < 30 →
      calculate_breakout_score df t = ⟨0, [], "Low", "Insufficient Data"⟩) := by
  refine ⟨fun orc df => ?_, fun df h => ?_, fun df t h => ?_⟩
  · by_cases hc : df.length < 30
    · simp [calculate_all_technicals, hc]
    · simp [calculate_all_technicals, hc]
  · simp [calculate_institutional_flow, h]
  · simp [calculate_breakout_score, h]

/-- C7 witness: the defaults at concrete short inputs (the empty series). -/
theorem short_input_defaults_witness :
    calculate_all_technicals noSqueeze [] = none ∧
    calculate_institutional_flow [] = ⟨50, "Neutral", [], "Low", none⟩ ∧
    calculate_breakout_score [] ⟨none, false, none⟩ =
      ⟨0, [], "Low", "Insufficient Data"⟩ :=
  ⟨(short_input_defaults.1 noSqueeze []).mpr (by decide),
   short_input_defaults.2.1 [] (by decide),
   short_input_defaults.2.2 [] ⟨none, false, none⟩ (by decide)⟩

/-- Financials with only the gross margin (75 percent) and ROE (25 percent)
available, for C8. -/
def c8fin : Financials :=
  ⟨some 75, some 25, none, none, none, none, none, none, none, none⟩

def c8cd : CompanyDetails := ⟨none⟩

/-- C8: factors with missing input are excluded from both the numerator and
the denominator of the moat normalization — the score is
`round(total_available_points / total_available_weights * 100)` — and with
only gross margin 75 (20 points of weight 20) and ROE 25 (15 points of
weight 15) available the score is round(35/35*100) = 100. -/
theorem moat_partial_normalization :
    (∀ (f : Financials) (cd : CompanyDetails), moat_max_possible f cd > 0 →
      (calculate_moat_score f cd).moat_score =
        some (pyRound ((moat_total_score f cd : ℚ) /
          (moat_max_possible f cd : ℚ) * 100))) ∧
    (moat_total_score c8fin c8cd = 35 ∧ moat_max_possible c8fin c8cd = 35 ∧
      (calculate_moat_score c8fin c8cd).moat_score = some 100) := by
  refine ⟨fun f cd h => ?_, by decide, by decide, by decide⟩
  simp [calculate_moat_score, h]

/-- C8 witness: the normalization formula applied at the concrete
two-factor financials. -/
theorem moat_partial_normalization_witness :
    (calculate_moat_score c8fin c8cd).moat_score =
      some (pyRound ((moat_total_score c8fin c8cd : ℚ) /
        (moat_max_possible c8fin c8cd : ℚ) * 100)) :=
  moat_partial_normalization.1 c8fin c8cd (by decide)

/-- C9: when the current price is strictly above the latest value of all
four EMAs, the full 40-point price-above component is included and the EMA
score is at least 40. -/
theorem ema_price_above_all (emas : EmaDict) (price v8 v21 v50 v200 : ℚ)
    (h8 : lastQ emas.e8 = some v8) (h21 : lastQ emas.e21 = some v21)
    (h50 : lastQ emas.e50 = some v50) (h200 : lastQ emas.e200 = some v200)
    (hp8 : price > v8) (hp21 : price > v21) (hp50 : price > v50)
    (hp200 : price > v200) :
    ema_above emas price = 40 ∧ 40 ≤ calculate_ema_score emas price := by
  have havail : emaLatestList emas = [v8, v21, v50, v200] := by
    simp [emaLatestList, h8, h21, h50, h200]
  have habove : ema_above emas price = 40 := by
    simp [ema_above, havail, List.filter, hp8, hp21, hp50, hp200]
  refine ⟨habove, ?_⟩
  simp only [calculate_ema_score, havail]
  rw [if_neg (by simp)]
  refine le_min ?_ (by norm_num)
  have h2 := stackPoints_nonneg [v8, v21, v50, v200]
  have h3 := ema_prox_nonneg emas price
  have h4 := ema_trend8_nonneg emas
  have h5 := ema_trend21_nonneg emas
  omega

/-- EMA dictionary for C9's witness: latest values 50, 40, 30, 20. -/
def c9emas : EmaDict := ⟨[50], [40], [30], [20]⟩

/-- C9 witness: price 100 above all four latest EMAs gives the full
40-point component. -/
theorem ema_price_above_all_witness :
    ema_above c9emas 100 = 40 ∧ 40 ≤ calculate_ema_score c9emas 100 :=
  ema_price_above_all c9emas 100 50 40 30 20 (by decide) (by decide)
    (by decide) (by decide) (by decide) (by decide) (by decide) (by decide)

/-- C10: the raw pre-breakout sub-signals sum to at most 95, so after the
0.70 normalization the breakout score never exceeds 67 and the
"EXTREME BREAKOUT PROBABILITY" pattern with "Very High" confidence
(which needs a normalized score of at least 75) is unreachable. -/
theorem breakout_score_cap (df : List Bar) (t : BreakoutTechIn) :
    (breakout_raw df t).1 ≤ 95 ∧
    (calculate_breakout_score df t).score ≤ 67 ∧
    (calculate_breakout_score df t).pattern ≠ "EXTREME BREAKOUT PROBABILITY" ∧
    (calculate_breakout_score df t).confidence ≠ "Very High" := by
  have hraw := (breakout_raw_bounds df t).2
  have hnorm : pyRound (((breakout_raw df t).1 : ℚ) * 0.70) ≤ 67 := by
    have hc : ((breakout_raw df t).1 : ℚ) ≤ 95 := by exact_mod_cast hraw
    have h1 : ((breakout_raw df t).1 : ℚ) * 0.70 ≤ 66.5 := by nlinarith
    have h2 := pyRound_cast_le (((breakout_raw df t).1 : ℚ) * 0.70)
    have h3 : (pyRound (((breakout_raw df t).1 : ℚ) * 0.70) : ℚ) ≤ 67 := by
      linarith
    exact_mod_cast h3
  refine ⟨hraw, ?_⟩
  by_cases h : df.length < 30
  · simp [calculate_breakout_score, h]
  · have hmin : min (pyRound (((breakout_raw df t).1 : ℚ) * 0.70)) 100 ≤ 67 :=
      le_trans (min_le_left _ _) hnorm
    have hlt : ¬ min (pyRound (((breakout_raw df t).1 : ℚ) * 0.70)) 100 ≥ 75 :=
      by omega
    simp only [calculate_breakout_score, if_neg h, if_neg hlt]
    refine ⟨hmin, ?_⟩
    split_ifs <;> simp

/-- C3 (amended): in the backtest walk, an iteration opens a trade if and
only if the truncated window yields non-empty technicals AND its EMA score
clears the configured minimum overall score (the quick filter of
run_backtest line 82) AND the overall score clears the same minimum AND the
recomputed recommendation action is one of the 4 buy-side actions. -/
theorem backtest_entry_gating (orc : List Bar → Bool) (df : List Bar) (i : ℕ)
    (cfg : BacktestConfig) :
    (backtest_signal orc df i cfg).isSome ↔
      ∃ tech ov a,
        calculate_all_technicals orc (df.take (i + 1)) = some tech ∧
        signal_overall orc (df.take (i + 1)) = some ov ∧
        signal_action orc (df.take (i + 1)) = some a ∧
        ¬ ((tech.ema_score : ℚ) < cfg.min_overall_score) ∧
        ¬ ((ov.score : ℚ) < cfg.min_overall_score) ∧
        a ∈ buySideActions := by
  by_cases hlen : (df.take (i + 1)).length < 30
  · have h : calculate_all_technicals orc (df.take (i + 1)) = none := by
      unfold calculate_all_technicals
      exact if_pos hlen
    simp only [backtest_signal, signal_overall, signal_action,
      signal_stock_data, h, if_pos hlen, Option.map_none', Option.isSome_none]
    simp
  · cases h : calculate_all_technicals orc (df.take (i + 1)) with
    | none =>
      exfalso
      unfold calculate_all_technicals at h
      rw [if_neg hlen] at h
      exact Option.some_ne_none _ h
    | some tech =>
      simp only [backtest_signal, signal_overall, signal_action,
        signal_stock_data, h, if_neg hlen, Option.map_some']
      split_ifs with h1 h2 h3 <;>
        simp_all [Option.isSome]

set_option maxRecDepth 100000 in
/-- C3 counterexample: bar 50 of the concrete 111-bar series is an
evaluated bar of the walk under the default configuration, the action
recomputed on its 51-bar window is SPECULATIVE BUY (buy-side) and the
overall score 34 clears the configured minimum 15 — yet no trade is
opened, because the quick filter rejects the bar on its EMA score 10. -/
theorem backtest_entry_gating_counterexample :
    50 ∈ evaluated_indices BACKTEST_CONFIG c3df.length ∧
    signal_action noSqueeze (c3df.take 51) = some "SPECULATIVE BUY" ∧
    "SPECULATIVE BUY" ∈ buySideActions ∧
    (signal_overall noSqueeze (c3df.take 51)).map OverallResult.score =
      some 34 ∧
    ¬ ((34 : ℚ) < BACKTEST_CONFIG.min_overall_score) ∧
    (calculate_all_technicals noSqueeze (c3df.take 51)).map
      Technicals.ema_score = some 10 ∧
    ((10 : ℚ) < BACKTEST_CONFIG.min_overall_score) ∧
    backtest_signal noSqueeze c3df 50 BACKTEST_CONFIG = none ∧
    run_backtest_ticker noSqueeze c3df BACKTEST_CONFIG = [] :=
  ⟨by decide, by decide, by decide, by decide, by decide, by decide,
   by decide, by decide, by decide⟩

end StockEval
